import Mathlib

set_option maxRecDepth 100000

/-!
Verification of the DeepSkies star-atlas core (DSWIN.C).

The embedding models the three core pieces of the program: the catalog
accessor (`validate`, `GetStar`), the coordinate projector (`EQConvert`
and its intermediates), and the field renderer (`renderLoop`,
`renderFrame`), together with the helpers `NormalizeZeroTwoPI`, `rtrim`
and the numeric parser `atof`.

Modelling conventions: the flat catalog store is a `List Char` of bytes;
C doubles are modelled as exact rationals (`ℚ`) where the code only does
field arithmetic and comparisons, and are embedded into `ℝ` inside the
projector where the code calls the transcendental math routines; C `long`
and `int` are `ℤ`; the C `(int)` cast on a double is truncation toward
zero (`ctrunc`, `ctruncQ`).
-/

/-- The space character, used for padding in the fixed-width records. -/
def spc : Char := Char.ofNat 32

/-- The NUL character, the C string terminator. -/
def nulChar : Char := Char.ofNat 0

/-- The newline character, which stops `fgets`. -/
def nlChar : Char := Char.ofNat 10

/-- Record length of star data (`streclen` in DSWIN.C, line 55). -/
def streclen : Nat := 61

/-- Program constant `TWOPI` (DSWIN.C line 52), kept as the exact rational
value of the source's double literal. -/
def TWOPI : ℚ := 6.283185307180

/-- Structural format failure for STARS.DAT: total length is not a
multiple of the record length (the "DATA FILE ERROR!" message box). -/
inductive FormatError where
  | misaligned
deriving DecidableEq

/-- Catalog validation, from the WM_PAINT handler (DSWIN.C lines 276-282):
seek to the end, take the byte length `floc`, fail when it is not a
multiple of `streclen`, and otherwise report `floc / streclen - 5`
addressable stars (the first 5 records are reserved headers). -/
def validate (store : List Char) : Except FormatError ℤ :=
  if store.length % streclen ≠ 0 then .error .misaligned
  else .ok ((store.length : ℤ) / streclen - 5)

/-- Numeric value of a decimal digit character. -/
def digitVal (c : Char) : Nat := c.toNat - 48

/-- Accumulate a digit string into a natural number, most significant
digit first. -/
def digitsToNat (l : List Char) : Nat :=
  l.foldl (fun acc c => acc * 10 + digitVal c) 0

/-- C `isspace` set used by `atof` to skip leading whitespace. -/
def isSpaceByte (c : Char) : Bool :=
  c = spc ∨ c = Char.ofNat 9 ∨ c = nlChar ∨ c = Char.ofNat 11 ∨
    c = Char.ofNat 12 ∨ c = Char.ofNat 13

/-- Decimal digit test (byte between `'0'` and `'9'`). -/
def isDigitByte (c : Char) : Bool := 48 ≤ c.toNat ∧ c.toNat ≤ 57

/-- Split an optional leading sign, returning the sign and the rest. -/
def signSplit (l : List Char) : ℤ × List Char :=
  match l with
  | '-' :: rest => (-1, rest)
  | '+' :: rest => (1, rest)
  | _ => (1, l)

/-- Apply an optional exponent suffix (already past the `e`/`E`) to a
mantissa; with no exponent digits the mantissa is returned unchanged. -/
def applyExp (mant : ℚ) (rest : List Char) : ℚ :=
  let (es, rest2) := signSplit rest
  let ed := rest2.takeWhile isDigitByte
  if ed.isEmpty then mant
  else if es < 0 then mant / 10 ^ digitsToNat ed else mant * 10 ^ digitsToNat ed

/-- The C library `atof`: skip leading whitespace, then an optional sign,
a digit string, an optional fraction and an optional exponent.  A field
with no mantissa digits converts to 0 (the tolerant legacy behavior for
malformed numeric sub-fields). -/
def atof (l : List Char) : ℚ :=
  let l1 := l.dropWhile isSpaceByte
  let (sgn, l2) := signSplit l1
  let ip := l2.takeWhile isDigitByte
  let l3 := l2.dropWhile isDigitByte
  let (fp, l4) :=
    match l3 with
    | '.' :: rest => (rest.takeWhile isDigitByte, rest.dropWhile isDigitByte)
    | _ => ([], l3)
  if ip.isEmpty ∧ fp.isEmpty then 0
  else
    let mant : ℚ := (digitsToNat ip : ℚ) + (digitsToNat fp : ℚ) / 10 ^ fp.length
    let v : ℚ :=
      match l4 with
      | 'e' :: rest => applyExp mant rest
      | 'E' :: rest => applyExp mant rest
      | _ => mant
    (sgn : ℚ) * v

/-- One star record as held in the global `STARDATA Star` (DSWIN.C lines
40-48).  Strings are the C-string values of the fixed char arrays. -/
structure STARDATA where
  Label : List Char
  RA : ℚ
  Dec : ℚ
  Mag : ℚ
  SClass : List Char
  PMRA : ℚ
  PMDec : ℚ
deriving DecidableEq

/-- The zero-initialized global `Star` variable (all bytes zero, so the
strings are empty and the doubles are 0.0). -/
def star0 : STARDATA := ⟨[], 0, 0, 0, [], 0, 0⟩

/-- The read loop of `fgets(buf, n+1, fp)` starting at the given byte
list: read up to `n` characters, stopping after a newline or at the end
of the store. -/
def fgetsAux (n : Nat) (l : List Char) : List Char :=
  match n, l with
  | 0, _ => []
  | _, [] => []
  | n + 1, c :: rest => if c = nlChar then [c] else c :: fgetsAux n rest

/-- `fseek(fp, fspot, SEEK_SET)` followed by `fgets(SL, streclen, fp)`
(DSWIN.C lines 522-524): the seek fails for a negative offset, and
`fgets` returns NULL when the position is at or past the end of the
store; otherwise it reads at most `streclen - 1 = 60` characters. -/
def readLine (store : List Char) (fspot : ℤ) : Option (List Char) :=
  if 0 ≤ fspot ∧ fspot.toNat < store.length then
    some (fgetsAux (streclen - 1) (store.drop fspot.toNat))
  else none

/-- C-string value left in `S` by `strncpy(S, SL + start, n); S[n] = 0`:
at most `n` characters from offset `start`, cut at the first NUL of the
source. -/
def cfield (start n : Nat) (SL : List Char) : List Char :=
  ((SL.drop start).take n).takeWhile (fun c => c ≠ nulChar)

/-- `GetStar` (DSWIN.C lines 512-581): seek to `(index + 4) * streclen`,
read one line, and cut the fixed-width sub-fields out of it; numeric
fields go through `atof`.  On a seek or read failure the function only
sets a local error flag whose handling block is commented out, so the
global `Star` — here the `star` argument — is returned unchanged. -/
def GetStar (store : List Char) (index : ℤ) (star : STARDATA) : STARDATA :=
  let fspot := (index + 4) * (streclen : ℤ)
  match readLine store fspot with
  | none => star
  | some SL =>
      { Label := cfield 0 16 SL
        RA := atof (cfield 17 11 SL)
        Dec := atof (cfield 28 12 SL)
        Mag := atof (cfield 40 5 SL)
        SClass := cfield 45 2 SL
        PMRA := atof (cfield 47 9 SL)
        PMDec := atof (cfield 56 9 SL) }

/-- Net effect of `rtrim` (DSWIN.C lines 474-486) on the C-string value:
the loop walks from the end writing NUL over spaces and stops at the
first non-space; the index never reaches 0, so the first character
survives even when the whole string is spaces. -/
def rtrim (target : List Char) : List Char :=
  let kept := (target.reverse.dropWhile (fun c => c = spc)).reverse
  if kept.isEmpty then target.take 1 else kept

/-- Modelled from the claim wording of C2 (spec §4.1): the record is the
full 61 bytes at offset `(index + 4) * 61`, and every field — including
the proper-motion-Dec field at bytes 56-64 — is cut from that record at
the table's ranges and parsed as a decimal number.  This is the
specification-side reader, kept for comparison against `GetStar`. -/
def GetStarSpec (store : List Char) (index : ℤ) : STARDATA :=
  let line := (store.drop ((index + 4) * (streclen : ℤ)).toNat).take 61
  { Label := line.take 17
    RA := atof ((line.drop 17).take 11)
    Dec := atof ((line.drop 28).take 12)
    Mag := atof ((line.drop 40).take 5)
    SClass := (line.drop 45).take 2
    PMRA := atof ((line.drop 47).take 9)
    PMDec := atof ((line.drop 56).take 9) }

/-- On-disk record 6 (star index 1) of the test store: label `Polaris`
padded to 17 bytes, RA 300, Dec 40, magnitude 2.00, spectral class A0,
zero proper motion in RA, and the digits `12345` in the last five byte
positions (bytes 56-60 of the record). -/
def rec6 : List Char :=
  ("Polaris          " ++ "     300.00" ++ "       40.00" ++ " 2.00" ++ "A0" ++
    "     0.00" ++ "12345").toList

/-- On-disk record 7 (star index 2) of the test store: label `Beta`, RA
100, Dec -10, magnitude 9.00, spectral class B1, zero proper motion. -/
def rec7 : List Char :=
  ("Beta             " ++ "     100.00" ++ "      -10.00" ++ " 9.00" ++ "B1" ++
    "     0.00" ++ "    0").toList

/-- Test store: five reserved 61-byte header records followed by two star
records, 427 = 61 * 7 bytes in total. -/
def store7 : List Char := List.replicate 305 spc ++ rec6 ++ rec7

/-- The value held by the global `Star` after the renderer has processed
star index 1 of `store7`; used as the stale previous contents when a
later read fails. -/
def staleStar : STARDATA := GetStar store7 1 star0

/-- The 60 bytes starting at the record offset of a star index: what
`fgets` actually delivers for that index when no newline intervenes. -/
def readBytes (store : List Char) (index : ℤ) : List Char :=
  (store.drop ((index + 4) * (streclen : ℤ)).toNat).take 60

/-- Program control structure `DSCONTROL` (DSWIN.C lines 21-38),
restricted to the fields the core reads: view centre, field of view,
limiting magnitude, rotation, and the display size in pixels.  (The
remaining fields of the C struct are written but never read by the core,
or serve only as the out-parameters modelled here by return values.) -/
structure DSCONTROL where
  RA : ℚ
  Dec : ℚ
  FOV : ℚ
  Mag : ℚ
  ROT : ℚ
  MaxX : ℤ
  MaxY : ℤ
deriving DecidableEq

/-- The WM_CREATE view-state defaults (DSWIN.C lines 220-224) with a
640x480 client area. -/
def dsc0 : DSCONTROL := ⟨300, 40, 60, 6.5, 0, 640, 480⟩

/-- The WM_CREATE view-state defaults with an 11x11 client area (odd
pixel counts, so the display centre falls on a half pixel). -/
def dscOdd : DSCONTROL := ⟨300, 40, 60, 6.5, 0, 11, 11⟩

/-- Program constant `PI` (DSWIN.C line 51): the double literal the code
uses for pi, as an exact real. -/
noncomputable def PI : ℝ := 3.141592653590

/-- Program constant `PI2` (DSWIN.C line 53): the code's half-pi. -/
noncomputable def PI2 : ℝ := 1.570796326795

/-- Program constant `RADS` (DSWIN.C line 54): the code's
degrees-to-radians factor. -/
noncomputable def RADS : ℝ := 0.017453292520

/-- The C library `atan2(y, x)`: quadrant-aware arctangent.  The value at
the origin is 0, matching the note in DSWIN.C lines 399-406 (the code
never reaches `atan2` there anyway because of its explicit guard). -/
noncomputable def atan2 (y x : ℝ) : ℝ :=
  if 0 < x then Real.arctan (y / x)
  else if x < 0 then
    (if 0 ≤ y then Real.arctan (y / x) + Real.pi else Real.arctan (y / x) - Real.pi)
  else if 0 < y then Real.pi / 2
  else if y < 0 then -(Real.pi / 2)
  else 0

/-- The C `(int)` cast applied to a double: truncation toward zero. -/
noncomputable def ctrunc (x : ℝ) : ℤ := if 0 ≤ x then ⌊x⌋ else ⌈x⌉

/-- The C `(int)` cast applied to an exactly-rational double. -/
def ctruncQ (x : ℚ) : ℤ := if 0 ≤ x then ⌊x⌋ else ⌈x⌉

/-- `EQConvert` local `fRA - RA` (DSWIN.C lines 388, 392, 396): the hour
angle between the view centre and the star, in radians. -/
noncomputable def EQh (dsc : DSCONTROL) (RA : ℚ) : ℝ :=
  (dsc.RA : ℝ) * RADS - (RA : ℝ) * RADS

/-- `EQConvert` local `p1 = sin(fRA - RA)` (DSWIN.C line 396). -/
noncomputable def EQp1 (dsc : DSCONTROL) (RA : ℚ) : ℝ := Real.sin (EQh dsc RA)

/-- `EQConvert` local `p2 = cos(fRA-RA)*sin(fDec) - tan(Dec)*cos(fDec)`
(DSWIN.C line 397). -/
noncomputable def EQp2 (dsc : DSCONTROL) (RA Dec : ℚ) : ℝ :=
  Real.cos (EQh dsc RA) * Real.sin ((dsc.Dec : ℝ) * RADS) -
    Real.tan ((Dec : ℝ) * RADS) * Real.cos ((dsc.Dec : ℝ) * RADS)

/-- `EQConvert` azimuth `Az` (DSWIN.C lines 407-411): 0 when both `p1`
and `p2` are exactly zero, otherwise `atan2(p1, p2)`. -/
noncomputable def EQAz (dsc : DSCONTROL) (RA Dec : ℚ) : ℝ :=
  if EQp1 dsc RA = 0 ∧ EQp2 dsc RA Dec = 0 then 0
  else atan2 (EQp1 dsc RA) (EQp2 dsc RA Dec)

/-- `EQConvert` local `TempVal = sin(fDec)*sin(Dec) +
cos(fDec)*cos(Dec)*cos(fRA-RA)` (DSWIN.C line 412). -/
noncomputable def EQTempVal (dsc : DSCONTROL) (RA Dec : ℚ) : ℝ :=
  Real.sin ((dsc.Dec : ℝ) * RADS) * Real.sin ((Dec : ℝ) * RADS) +
    Real.cos ((dsc.Dec : ℝ) * RADS) * Real.cos ((Dec : ℝ) * RADS) *
      Real.cos (EQh dsc RA)

/-- `EQConvert` altitude `Alt` (DSWIN.C lines 415-420): clamped to the
program's half-pi constant `PI2` when `TempVal >= 1.0`, otherwise
`asin(TempVal)`. -/
noncomputable def EQAlt (dsc : DSCONTROL) (RA Dec : ℚ) : ℝ :=
  if EQTempVal dsc RA Dec ≥ 1 then PI2 else Real.arcsin (EQTempVal dsc RA Dec)

/-- `EQConvert` local `nz = 1.0 - 2.0*Alt/PI` (DSWIN.C line 423). -/
noncomputable def EQnz (dsc : DSCONTROL) (RA Dec : ℚ) : ℝ :=
  1 - 2 * EQAlt dsc RA Dec / PI

/-- `EQConvert` local `az2 = Az - PI2 + fROT` (DSWIN.C line 424). -/
noncomputable def EQaz2 (dsc : DSCONTROL) (RA Dec : ℚ) : ℝ :=
  EQAz dsc RA Dec - PI2 + (dsc.ROT : ℝ) * RADS

/-- `EQConvert` local `tX = (nz*cos(az2))*PI/fFOV` (DSWIN.C line 425). -/
noncomputable def EQtX (dsc : DSCONTROL) (RA Dec : ℚ) : ℝ :=
  (EQnz dsc RA Dec * Real.cos (EQaz2 dsc RA Dec)) * PI / ((dsc.FOV : ℝ) * RADS)

/-- `EQConvert` local `tY = -(nz*sin(az2))*PI/fFOV` (DSWIN.C line 426). -/
noncomputable def EQtY (dsc : DSCONTROL) (RA Dec : ℚ) : ℝ :=
  -(EQnz dsc RA Dec * Real.sin (EQaz2 dsc RA Dec)) * PI / ((dsc.FOV : ℝ) * RADS)

/-- `EQConvert` local `xyScale = (MaxX/fFOV)/(120.0/FOV)` (DSWIN.C line
429). -/
noncomputable def EQxyScale (dsc : DSCONTROL) : ℝ :=
  ((dsc.MaxX : ℝ) / ((dsc.FOV : ℝ) * RADS)) / (120.0 / (dsc.FOV : ℝ))

/-- `EQConvert` (DSWIN.C lines 376-435): convert a star's RA/Dec (in
degrees) to pixel coordinates `(CX, CY)` for the current view state.  The
source writes the pair into the shared `DsC` structure; here it is the
return value. -/
noncomputable def EQConvert (dsc : DSCONTROL) (RA Dec : ℚ) : ℤ × ℤ :=
  (ctrunc ((dsc.MaxX : ℝ) / 2.0 + EQtX dsc RA Dec * EQxyScale dsc),
   ctrunc ((dsc.MaxY : ℝ) / 2.0 + EQtY dsc RA Dec * EQxyScale dsc))

/-- Symbol-size computation for one star (DSWndProc WM_PAINT, DSWIN.C
lines 293-305): base size from the limiting magnitude (capped at 15),
then clamped below by 1.0 and above by 8.0. -/
def starSize (limitMag mag : ℚ) : ℚ :=
  let sz0 := if limitMag ≤ 15 then limitMag - mag + 0.5 else 15 - mag + 0.5
  let sz1 := if sz0 < 1 then 1 else sz0
  if sz1 > 8 then 8 else sz1

/-- One drawing directive emitted to the rendering surface: the GDI calls
`SetPixel`, `Ellipse` (by corner coordinates) and `TextOut` made by the
WM_PAINT star loop. -/
inductive Directive where
  | setPixel (x y : ℤ)
  | ellipse (x1 y1 x2 y2 : ℤ)
  | textOut (x y : ℤ) (s : List Char)
deriving DecidableEq

/-- The WM_PAINT star loop (DSWIN.C lines 284-321) over a list of star
indices, threading the global `Star` record through the iterations: read
the star (a failed read leaves `star` unchanged), skip it unless its
magnitude is within the limit, otherwise project it and emit a pixel or
a filled circle, plus a label when the star is more than 3 magnitudes
brighter than the limit. -/
noncomputable def renderLoop (store : List Char) (dsc : DSCONTROL) :
    List ℤ → STARDATA → List Directive
  | [], _ => []
  | i :: rest, star =>
      let s := GetStar store i star
      (if s.Mag ≤ dsc.Mag then
        let cx := (EQConvert dsc s.RA s.Dec).1
        let cy := (EQConvert dsc s.RA s.Dec).2
        let sz := starSize dsc.Mag s.Mag
        let szi := ctruncQ sz
        (if sz = 1 then [Directive.setPixel cx cy]
         else [Directive.ellipse (cx - szi) (cy - szi) (cx + szi) (cy + szi)]) ++
          (if s.Mag < dsc.Mag - 3 then
            [Directive.textOut (cx + szi) (cy - szi) s.Label]
          else [])
      else []) ++ renderLoop store dsc rest s

/-- The index sequence `i = 1 .. Stars` of the WM_PAINT star loop (empty
when the star count is not positive). -/
def starIndices (stars : ℤ) : List ℤ :=
  (List.range stars.toNat).map (fun k => (k : ℤ) + 1)

/-- One frame of the WM_PAINT handler over an opened store: validate the
store and, when it is well-formed, run the star loop over indices
`1 .. Stars` starting from the zero-initialized `Star`; a structurally
invalid store renders no stars (only the error message box is shown). -/
noncomputable def renderFrame (dsc : DSCONTROL) (store : List Char) : List Directive :=
  match validate store with
  | .error _ => []
  | .ok stars => renderLoop store dsc (starIndices stars) star0

/-- First loop of `NormalizeZeroTwoPI` (DSWIN.C lines 453-455): subtract
`TWOPI` while the value is at least `TWOPI`. -/
def normSub (x : ℚ) : ℚ :=
  if h : TWOPI ≤ x then normSub (x - TWOPI) else x
termination_by (⌊x / TWOPI⌋).toNat
decreasing_by
  have hT : (0 : ℚ) < TWOPI := by norm_num [TWOPI]
  have h1 : (1 : ℚ) ≤ x / TWOPI := (one_le_div hT).mpr h
  have h2 : (x - TWOPI) / TWOPI = x / TWOPI - 1 := by field_simp
  have h3 : ⌊(x - TWOPI) / TWOPI⌋ = ⌊x / TWOPI⌋ - 1 := by
    rw [h2, Int.floor_sub_one]
  have h4 : (1 : ℤ) ≤ ⌊x / TWOPI⌋ := by
    exact_mod_cast Int.le_floor.mpr (by exact_mod_cast h1)
  omega

/-- Second loop of `NormalizeZeroTwoPI` (DSWIN.C lines 457-459): add
`TWOPI` while the value is negative. -/
def normAdd (x : ℚ) : ℚ :=
  if h : x < 0 then normAdd (x + TWOPI) else x
termination_by (⌈-x / TWOPI⌉).toNat
decreasing_by
  have hT : (0 : ℚ) < TWOPI := by norm_num [TWOPI]
  have h1 : 0 < -x / TWOPI := div_pos (by linarith) hT
  have h2 : -(x + TWOPI) / TWOPI = -x / TWOPI - 1 := by field_simp; ring
  have h3 : ⌈-(x + TWOPI) / TWOPI⌉ = ⌈-x / TWOPI⌉ - 1 := by
    rw [h2, Int.ceil_sub_one]
  have h4 : (1 : ℤ) ≤ ⌈-x / TWOPI⌉ := Int.ceil_pos.mpr h1
  omega

/-- `NormalizeZeroTwoPI` (DSWIN.C lines 446-463): runs the subtracting
loop, then the adding loop. -/
def NormalizeZeroTwoPI (value : ℚ) : ℚ := normAdd (normSub value)

/-- C1: `validate` fails with a `FormatError` iff the store length is not
a multiple of 61; otherwise it returns `length / 61 - 5` as the star
count; in particular a store of length `61*7` yields star count 2 and a
store of length `61*7 + 1` yields a `FormatError`. -/
theorem validate_format_iff (store : List Char) :
    (validate store = .error .misaligned ↔ store.length % 61 ≠ 0)
    ∧ (store.length % 61 = 0 →
        validate store = .ok ((store.length : ℤ) / 61 - 5))
    ∧ validate (List.replicate (61 * 7) spc) = .ok 2
    ∧ validate (List.replicate (61 * 7 + 1) spc) = .error .misaligned := by
  refine ⟨?_, ?_, ?_, ?_⟩
  · unfold validate streclen
    split_ifs with h
    · simp [h]
    · simp [h]
  · intro h
    unfold validate streclen
    simp [h]
  · rfl
  · rfl

/-- Witness for C1 at the concrete store of length `61*7` (and `61*7+1`),
instantiating the characterization and discharging its hypothesis. -/
theorem validate_format_iff_witness :
    validate (List.replicate (61 * 7) spc) = .ok 2
    ∧ validate (List.replicate (61 * 7 + 1) spc) = .error .misaligned := by
  have h := validate_format_iff (List.replicate (61 * 7) spc)
  exact ⟨h.2.2.1, (validate_format_iff []).2.2.2⟩

theorem normSub_lt (x : ℚ) : normSub x < TWOPI := by
  induction x using normSub.induct with
  | case1 x h ih => rw [normSub, dif_pos h]; exact ih
  | case2 x h => rw [normSub, dif_neg h]; exact lt_of_not_le h

theorem normSub_nonneg (x : ℚ) : 0 ≤ x → 0 ≤ normSub x := by
  induction x using normSub.induct with
  | case1 x h ih =>
      intro _
      have hT : (0 : ℚ) < TWOPI := by norm_num [TWOPI]
      rw [normSub, dif_pos h]
      exact ih (by linarith)
  | case2 x h =>
      intro hx
      rw [normSub, dif_neg h]
      exact hx

theorem normSub_eq_self (x : ℚ) (h : x < TWOPI) : normSub x = x := by
  rw [normSub, dif_neg (not_le.mpr h)]

theorem normAdd_nonneg (x : ℚ) : 0 ≤ normAdd x := by
  induction x using normAdd.induct with
  | case1 x h ih => rw [normAdd, dif_pos h]; exact ih
  | case2 x h => rw [normAdd, dif_neg h]; exact le_of_not_lt h

theorem normAdd_lt (x : ℚ) : x < TWOPI → normAdd x < TWOPI := by
  induction x using normAdd.induct with
  | case1 x h ih =>
      intro _
      have hT : (0 : ℚ) < TWOPI := by norm_num [TWOPI]
      rw [normAdd, dif_pos h]
      exact ih (by linarith)
  | case2 x h =>
      intro hx
      rw [normAdd, dif_neg h]
      exact hx

theorem normAdd_eq_self (x : ℚ) (h : 0 ≤ x) : normAdd x = x := by
  rw [normAdd, dif_neg (not_lt.mpr h)]

/-- C8: `NormalizeZeroTwoPI` is idempotent and, for every (finite,
exactly-rational) input — including large multiples of `TWOPI` and
negative values — returns a value in the half-open interval
`[0, TWOPI)`, `TWOPI` being the program's two-pi constant.  Termination
for every input is witnessed by the function being total in this
embedding. -/
theorem NormalizeZeroTwoPI_idempotent_range (x : ℚ) :
    NormalizeZeroTwoPI (NormalizeZeroTwoPI x) = NormalizeZeroTwoPI x
    ∧ 0 ≤ NormalizeZeroTwoPI x ∧ NormalizeZeroTwoPI x < TWOPI := by
  have h0 : 0 ≤ NormalizeZeroTwoPI x := normAdd_nonneg (normSub x)
  have h1 : NormalizeZeroTwoPI x < TWOPI := normAdd_lt _ (normSub_lt x)
  refine ⟨?_, h0, h1⟩
  unfold NormalizeZeroTwoPI at h0 h1 ⊢
  rw [normSub_eq_self _ h1, normAdd_eq_self _ h0]

/-- C6: the symbol size is the base formula `limitMag - mag + 0.5` when
`limitMag ≤ 15.0` and `15.0 - mag + 0.5` otherwise, and the result is
always clamped into `[1.0, 8.0]`, however extreme the inputs. -/
theorem starSize_formula_and_clamp (limitMag mag : ℚ) :
    starSize limitMag mag
      = min 8 (max 1 (if limitMag ≤ 15 then limitMag - mag + 0.5 else 15 - mag + 0.5))
    ∧ 1 ≤ starSize limitMag mag ∧ starSize limitMag mag ≤ 8 := by
  have key : ∀ a : ℚ,
      (if (if a < 1 then (1 : ℚ) else a) > 8 then (8 : ℚ) else if a < 1 then 1 else a)
        = min 8 (max 1 a) := by
    intro a
    rcases lt_or_le a 1 with h | h
    · rw [if_pos h, if_neg (by norm_num), max_eq_left h.le,
        min_eq_right (by norm_num : (1 : ℚ) ≤ 8)]
    · rw [if_neg (not_lt.mpr h), max_eq_right h]
      rcases lt_or_le 8 a with h8 | h8
      · rw [if_pos h8, min_eq_left h8.le]
      · rw [if_neg (not_lt.mpr h8), min_eq_right h8]
  have hs : starSize limitMag mag
      = min 8 (max 1 (if limitMag ≤ 15 then limitMag - mag + 0.5 else 15 - mag + 0.5)) := by
    unfold starSize
    exact key _
  refine ⟨hs, ?_, ?_⟩
  · rw [hs]
    exact le_min (by norm_num) (le_max_left _ _)
  · rw [hs]
    exact min_le_left _ _

theorem fgetsAux_eq_take (n : Nat) (l : List Char)
    (h : ∀ c ∈ l.take n, c ≠ nlChar) : fgetsAux n l = l.take n := by
  induction n generalizing l with
  | zero => simp [fgetsAux]
  | succ n ih =>
      cases l with
      | nil => simp [fgetsAux]
      | cons c rest =>
          have hc : c ≠ nlChar := h c (by simp)
          rw [fgetsAux, if_neg hc, List.take_succ_cons,
            ih rest (fun d hd => h d (by simp [hd]))]

theorem cfield_eq_take (start n : Nat) (SL : List Char)
    (h : ∀ c ∈ SL, c ≠ nulChar) : cfield start n SL = (SL.drop start).take n := by
  unfold cfield
  rw [List.takeWhile_eq_self_iff.mpr]
  intro c hc
  exact decide_eq_true
    (h c (List.drop_subset _ _ (List.take_subset _ _ hc)))

theorem GetStar_eq_of_some (store : List Char) (index : ℤ) (star : STARDATA)
    (SL : List Char)
    (h : readLine store ((index + 4) * (streclen : ℤ)) = some SL) :
    GetStar store index star =
      { Label := cfield 0 16 SL
        RA := atof (cfield 17 11 SL)
        Dec := atof (cfield 28 12 SL)
        Mag := atof (cfield 40 5 SL)
        SClass := cfield 45 2 SL
        PMRA := atof (cfield 47 9 SL)
        PMDec := atof (cfield 56 9 SL) } := by
  simp only [GetStar]
  rw [h]

theorem GetStar_eq_of_none (store : List Char) (index : ℤ) (star : STARDATA)
    (h : readLine store ((index + 4) * (streclen : ℤ)) = none) :
    GetStar store index star = star := by
  simp only [GetStar]
  rw [h]

theorem EQh_self (dsc : DSCONTROL) : EQh dsc dsc.RA = 0 := sub_self _

theorem EQTempVal_self (dsc : DSCONTROL) : EQTempVal dsc dsc.RA dsc.Dec = 1 := by
  unfold EQTempVal
  rw [EQh_self, Real.cos_zero, mul_one, ← Real.sin_sq_add_cos_sq ((dsc.Dec : ℝ) * RADS)]
  ring

theorem EQAlt_self (dsc : DSCONTROL) : EQAlt dsc dsc.RA dsc.Dec = PI2 := by
  unfold EQAlt
  rw [EQTempVal_self]
  norm_num

theorem EQnz_self (dsc : DSCONTROL) : EQnz dsc dsc.RA dsc.Dec = 0 := by
  unfold EQnz
  rw [EQAlt_self]
  unfold PI2 PI
  norm_num

theorem EQtX_self (dsc : DSCONTROL) : EQtX dsc dsc.RA dsc.Dec = 0 := by
  unfold EQtX
  rw [EQnz_self]
  simp

theorem EQtY_self (dsc : DSCONTROL) : EQtY dsc dsc.RA dsc.Dec = 0 := by
  unfold EQtY
  rw [EQnz_self]
  simp

theorem EQConvert_self (dsc : DSCONTROL) :
    EQConvert dsc dsc.RA dsc.Dec
      = (ctrunc ((dsc.MaxX : ℝ) / 2), ctrunc ((dsc.MaxY : ℝ) / 2)) := by
  unfold EQConvert
  rw [EQtX_self, EQtY_self]
  norm_num

theorem ctrunc_floor (x : ℝ) (h : 0 ≤ x) : ctrunc x = ⌊x⌋ := if_pos h

/-- C3: projecting the view's own centre coordinates, for any view state
with centre RA in `[0, 360)`, centre Dec in `[-90, 90]`, rotation 0,
positive field of view and positive display size, lands within one pixel
of the display centre `(MaxX / 2, MaxY / 2)`. -/
theorem EQConvert_center_within_one_pixel (dsc : DSCONTROL)
    (hra0 : 0 ≤ dsc.RA) (hra1 : dsc.RA < 360)
    (hdec0 : -90 ≤ dsc.Dec) (hdec1 : dsc.Dec ≤ 90)
    (hrot : dsc.ROT = 0) (hfov : 0 < dsc.FOV)
    (hx : 0 < dsc.MaxX) (hy : 0 < dsc.MaxY) :
    |((EQConvert dsc dsc.RA dsc.Dec).1 : ℝ) - (dsc.MaxX : ℝ) / 2| ≤ 1
    ∧ |((EQConvert dsc dsc.RA dsc.Dec).2 : ℝ) - (dsc.MaxY : ℝ) / 2| ≤ 1 := by
  rw [EQConvert_self]
  have hx' : (0 : ℝ) ≤ (dsc.MaxX : ℝ) / 2 := by
    have : (0 : ℝ) < (dsc.MaxX : ℝ) := by exact_mod_cast hx
    linarith
  have hy' : (0 : ℝ) ≤ (dsc.MaxY : ℝ) / 2 := by
    have : (0 : ℝ) < (dsc.MaxY : ℝ) := by exact_mod_cast hy
    linarith
  constructor
  · rw [ctrunc_floor _ hx']
    have h1 := Int.floor_le ((dsc.MaxX : ℝ) / 2)
    have h2 := Int.lt_floor_add_one ((dsc.MaxX : ℝ) / 2)
    rw [abs_le]
    constructor <;> linarith
  · rw [ctrunc_floor _ hy']
    have h1 := Int.floor_le ((dsc.MaxY : ℝ) / 2)
    have h2 := Int.lt_floor_add_one ((dsc.MaxY : ℝ) / 2)
    rw [abs_le]
    constructor <;> linarith

/-- Witness for C3 at the default view state (centre 300/40, FOV 60,
rotation 0, limit 6.5) on a 640x480 display. -/
theorem EQConvert_center_within_one_pixel_witness :
    |((EQConvert dsc0 dsc0.RA dsc0.Dec).1 : ℝ) - (dsc0.MaxX : ℝ) / 2| ≤ 1
    ∧ |((EQConvert dsc0 dsc0.RA dsc0.Dec).2 : ℝ) - (dsc0.MaxY : ℝ) / 2| ≤ 1 :=
  EQConvert_center_within_one_pixel dsc0 (by norm_num [dsc0]) (by norm_num [dsc0])
    (by norm_num [dsc0]) (by norm_num [dsc0]) (by norm_num [dsc0])
    (by norm_num [dsc0]) (by norm_num [dsc0]) (by norm_num [dsc0])

theorem EQp1_self (dsc : DSCONTROL) : EQp1 dsc dsc.RA = 0 := by
  unfold EQp1
  rw [EQh_self, Real.sin_zero]

theorem EQp2_self (dsc : DSCONTROL)
    (h : Real.cos ((dsc.Dec : ℝ) * RADS) ≠ 0) : EQp2 dsc dsc.RA dsc.Dec = 0 := by
  unfold EQp2
  rw [EQh_self, Real.cos_zero, one_mul, Real.tan_eq_sin_div_cos,
    div_mul_cancel₀ _ h, sub_self]

/-- C7: the altitude intermediate `TempVal` never falls below -1, so the
arcsine is never applied outside its domain; whenever `TempVal ≥ 1.0`
the altitude is exactly the program's half-pi constant `PI2` (the value
the source uses for pi/2), so no domain fault is raised; and when `p1`
and `p2` are both exactly zero the azimuth is 0, so no error propagates
out of the projector. -/
theorem projector_domain_clamps (dsc : DSCONTROL) (RA Dec : ℚ) :
    -1 ≤ EQTempVal dsc RA Dec
    ∧ (1 ≤ EQTempVal dsc RA Dec → EQAlt dsc RA Dec = PI2)
    ∧ (EQp1 dsc RA = 0 → EQp2 dsc RA Dec = 0 → EQAz dsc RA Dec = 0) := by
  refine ⟨?_, ?_, ?_⟩
  · unfold EQTempVal
    have ha := Real.sin_sq_add_cos_sq ((dsc.Dec : ℝ) * RADS)
    have hb := Real.sin_sq_add_cos_sq ((Dec : ℝ) * RADS)
    have hc1 := Real.neg_one_le_cos (EQh dsc RA)
    have hc2 := Real.cos_le_one (EQh dsc RA)
    nlinarith [sq_nonneg (Real.sin ((dsc.Dec : ℝ) * RADS) + Real.sin ((Dec : ℝ) * RADS)),
      mul_nonneg (by linarith : (0 : ℝ) ≤ 1 + Real.cos (EQh dsc RA))
        (sq_nonneg (Real.cos ((dsc.Dec : ℝ) * RADS) + Real.cos ((Dec : ℝ) * RADS))),
      mul_nonneg (by linarith : (0 : ℝ) ≤ 1 - Real.cos (EQh dsc RA))
        (sq_nonneg (Real.cos ((dsc.Dec : ℝ) * RADS) - Real.cos ((Dec : ℝ) * RADS)))]
  · intro h1
    unfold EQAlt
    exact if_pos h1
  · intro hp1 hp2
    unfold EQAz
    exact if_pos ⟨hp1, hp2⟩

/-- Witness for C7 at the default view state and the star at the view
centre (where `TempVal = 1` and `p1 = p2 = 0`). -/
theorem projector_domain_clamps_witness :
    EQAlt dsc0 dsc0.RA dsc0.Dec = PI2 ∧ EQAz dsc0 dsc0.RA dsc0.Dec = 0 := by
  have h := projector_domain_clamps dsc0 dsc0.RA dsc0.Dec
  have hcos : Real.cos ((dsc0.Dec : ℝ) * RADS) ≠ 0 := by
    have hd : ((dsc0.Dec : ℚ) : ℝ) * RADS = 0.6981317008 := by
      unfold RADS
      norm_num [dsc0]
    have hpi := Real.pi_gt_d6
    have hpos : 0 < Real.cos ((dsc0.Dec : ℝ) * RADS) := by
      apply Real.cos_pos_of_mem_Ioo
      constructor
      · rw [hd]; nlinarith
      · rw [hd]; nlinarith
    linarith
  exact ⟨h.2.1 (le_of_eq (EQTempVal_self dsc0).symm),
    h.2.2 (EQp1_self dsc0) (EQp2_self dsc0 hcos)⟩

/-- C9 (counterexample): with the default view state on an 11x11 display,
projecting the view centre gives pixel x-coordinate `(int)(5.5) = 5`,
whereas the claimed `round(displayWidth/2 + planarX*scale)` is 6: the
code truncates, it does not round. -/
theorem EQConvert_not_rounded_counterexample :
    (EQConvert dscOdd 300 40).1
      ≠ round ((dscOdd.MaxX : ℝ) / 2 + EQtX dscOdd 300 40 * EQxyScale dscOdd) := by
  have hX : EQtX dscOdd 300 40 = 0 := by
    have h := EQtX_self dscOdd
    simpa only [dscOdd] using h
  have h11 : ((dscOdd.MaxX : ℤ) : ℝ) / 2.0 = 5.5 := by norm_num [dscOdd]
  have hL : (EQConvert dscOdd 300 40).1 = 5 := by
    show ctrunc ((dscOdd.MaxX : ℝ) / 2.0 + EQtX dscOdd 300 40 * EQxyScale dscOdd) = 5
    rw [hX, zero_mul, add_zero, h11]
    unfold ctrunc
    rw [if_pos (by norm_num)]
    rw [Int.floor_eq_iff] <;> norm_num
  have hR : round ((dscOdd.MaxX : ℝ) / 2 + EQtX dscOdd 300 40 * EQxyScale dscOdd) = 6 := by
    rw [hX, zero_mul, add_zero]
    have h11' : ((dscOdd.MaxX : ℤ) : ℝ) / 2 = 5.5 := by norm_num [dscOdd]
    rw [h11', round_eq]
    rw [Int.floor_eq_iff] <;> norm_num
  rw [hL, hR]
  norm_num

/-- C9 (amended): the output pixel position is obtained by the C `(int)`
cast — truncation toward zero, i.e. floor of a nonnegative value and
ceiling of a negative one, not rounding — applied to
`displayWidth/2 + planarX*scale` and `displayHeight/2 + planarY*scale`,
with `scale = (displayWidth / fov_rad) / (120.0 / fov_deg)`. -/
theorem EQConvert_pixel_truncation (dsc : DSCONTROL) (RA Dec : ℚ) :
    EQConvert dsc RA Dec
      = ((if 0 ≤ (dsc.MaxX : ℝ) / 2 + EQtX dsc RA Dec * EQxyScale dsc
            then ⌊(dsc.MaxX : ℝ) / 2 + EQtX dsc RA Dec * EQxyScale dsc⌋
            else ⌈(dsc.MaxX : ℝ) / 2 + EQtX dsc RA Dec * EQxyScale dsc⌉),
         (if 0 ≤ (dsc.MaxY : ℝ) / 2 + EQtY dsc RA Dec * EQxyScale dsc
            then ⌊(dsc.MaxY : ℝ) / 2 + EQtY dsc RA Dec * EQxyScale dsc⌋
            else ⌈(dsc.MaxY : ℝ) / 2 + EQtY dsc RA Dec * EQxyScale dsc⌉))
    ∧ EQxyScale dsc = ((dsc.MaxX : ℝ) / ((dsc.FOV : ℝ) * RADS)) / (120 / (dsc.FOV : ℝ)) := by
  constructor
  · unfold EQConvert ctrunc
    norm_num
  · unfold EQxyScale
    norm_num

unseal Rat.add Rat.sub Rat.mul Rat.inv Rat.ofScientific in
theorem getStar_store7_first :
    GetStar store7 1 star0
      = ⟨("Polaris").toList ++ List.replicate 9 spc, 300, 40, 2,
          ("A0").toList, 0, 1234⟩ := by
  decide

theorem staleStar_value :
    staleStar
      = ⟨("Polaris").toList ++ List.replicate 9 spc, 300, 40, 2,
          ("A0").toList, 0, 1234⟩ :=
  getStar_store7_first

unseal Rat.add Rat.sub Rat.mul Rat.inv Rat.ofScientific in
theorem getStar_store7_second :
    GetStar store7 2
        (⟨("Polaris").toList ++ List.replicate 9 spc, 300, 40, 2,
          ("A0").toList, 0, 1234⟩ : STARDATA)
      = ⟨("Beta").toList ++ List.replicate 12 spc, 100, -10, 9,
          ("B1").toList, 0, 0⟩ := by
  decide

theorem getStar_store7_out_of_range (s : STARDATA) : GetStar store7 3 s = s :=
  GetStar_eq_of_none store7 3 s (by decide)

theorem renderLoop_nil (store : List Char) (dsc : DSCONTROL) (star : STARDATA) :
    renderLoop store dsc [] star = [] := rfl

theorem renderLoop_cons (store : List Char) (dsc : DSCONTROL) (i : ℤ)
    (rest : List ℤ) (star : STARDATA) :
    renderLoop store dsc (i :: rest) star
      = (if (GetStar store i star).Mag ≤ dsc.Mag then
          (if starSize dsc.Mag (GetStar store i star).Mag = 1 then
            [Directive.setPixel (EQConvert dsc (GetStar store i star).RA
                (GetStar store i star).Dec).1
              (EQConvert dsc (GetStar store i star).RA (GetStar store i star).Dec).2]
          else
            [Directive.ellipse
              ((EQConvert dsc (GetStar store i star).RA (GetStar store i star).Dec).1
                - ctruncQ (starSize dsc.Mag (GetStar store i star).Mag))
              ((EQConvert dsc (GetStar store i star).RA (GetStar store i star).Dec).2
                - ctruncQ (starSize dsc.Mag (GetStar store i star).Mag))
              ((EQConvert dsc (GetStar store i star).RA (GetStar store i star).Dec).1
                + ctruncQ (starSize dsc.Mag (GetStar store i star).Mag))
              ((EQConvert dsc (GetStar store i star).RA (GetStar store i star).Dec).2
                + ctruncQ (starSize dsc.Mag (GetStar store i star).Mag))]) ++
          (if (GetStar store i star).Mag < dsc.Mag - 3 then
            [Directive.textOut
              ((EQConvert dsc (GetStar store i star).RA (GetStar store i star).Dec).1
                + ctruncQ (starSize dsc.Mag (GetStar store i star).Mag))
              ((EQConvert dsc (GetStar store i star).RA (GetStar store i star).Dec).2
                - ctruncQ (starSize dsc.Mag (GetStar store i star).Mag))
              (GetStar store i star).Label]
          else [])
        else []) ++ renderLoop store dsc rest (GetStar store i star) := rfl

theorem starSize_eval_two : starSize (6.5 : ℚ) 2 = 5 := by
  unfold starSize
  norm_num

theorem ctruncQ_eval_five : ctruncQ (5 : ℚ) = 5 := by
  unfold ctruncQ
  rw [if_pos (by norm_num)]
  rw [Int.floor_eq_iff] <;> norm_num

theorem EQConvert_dsc0_center : EQConvert dsc0 300 40 = (320, 240) := by
  have h := EQConvert_self dsc0
  simp only [dsc0] at h ⊢
  rw [h]
  have hx : ctrunc (((640 : ℤ) : ℝ) / 2) = 320 := by
    unfold ctrunc
    rw [if_pos (by norm_num)]
    rw [Int.floor_eq_iff] <;> norm_num
  have hy : ctrunc (((480 : ℤ) : ℝ) / 2) = 240 := by
    unfold ctrunc
    rw [if_pos (by norm_num)]
    rw [Int.floor_eq_iff] <;> norm_num
  rw [hx, hy]

theorem renderFrame_store7_eval :
    renderFrame dsc0 store7
      = [Directive.ellipse 315 235 325 245,
         Directive.textOut 325 235 (("Polaris").toList ++ List.replicate 9 spc)] := by
  have hv : validate store7 = .ok 2 := rfl
  have hidx : starIndices 2 = [1, 2] := rfl
  have hMag : dsc0.Mag = 6.5 := rfl
  unfold renderFrame
  rw [hv]
  show renderLoop store7 dsc0 (starIndices 2) star0 = _
  rw [hidx, renderLoop_cons, getStar_store7_first, renderLoop_cons,
    getStar_store7_second, renderLoop_nil]
  norm_num [hMag, starSize_eval_two, ctruncQ_eval_five, EQConvert_dsc0_center]
  have h52 : starSize ((13 : ℚ) / 2) 2 = 5 := by
    unfold starSize
    norm_num
  rw [h52, ctruncQ_eval_five]
  norm_num

theorem renderLoop_store7_single_one :
    renderLoop store7 dsc0 [1] star0
      = [Directive.ellipse 315 235 325 245,
         Directive.textOut 325 235 (("Polaris").toList ++ List.replicate 9 spc)] := by
  have hMag : dsc0.Mag = 6.5 := rfl
  rw [renderLoop_cons, getStar_store7_first, renderLoop_nil]
  norm_num [hMag, EQConvert_dsc0_center]
  have h52 : starSize ((13 : ℚ) / 2) 2 = 5 := by
    unfold starSize
    norm_num
  rw [h52, ctruncQ_eval_five]
  norm_num

theorem renderLoop_store7_failed_three :
    renderLoop store7 dsc0 [3] staleStar
      = [Directive.ellipse 315 235 325 245,
         Directive.textOut 325 235 (("Polaris").toList ++ List.replicate 9 spc)] := by
  have hMag : dsc0.Mag = 6.5 := rfl
  rw [renderLoop_cons, getStar_store7_out_of_range, staleStar_value, renderLoop_nil]
  norm_num [hMag, EQConvert_dsc0_center]
  have h52 : starSize ((13 : ℚ) / 2) 2 = 5 := by
    unfold starSize
    norm_num
  rw [h52, ctruncQ_eval_five]
  norm_num

/-- C10 (counterexample): the 5-header, two-star catalog with magnitudes
2.0 and 9.0 rendered at limiting magnitude 6.5 produces two drawing
directives, not exactly one: the magnitude-2.0 star is bright enough
(2.0 < 6.5 - 3.0) to also receive a text-label directive on top of its
filled-circle directive. -/
theorem renderFrame_count_counterexample :
    (renderFrame dsc0 store7).length = 2 ∧ (renderFrame dsc0 store7).length ≠ 1 := by
  rw [renderFrame_store7_eval]
  norm_num

/-- C10 (amended): rendering the two-star catalog emits directives only
for the magnitude-2.0 star — one filled-circle directive and one
text-label directive, the latter because 2.0 < 6.5 − 3.0 — and nothing
for the magnitude-9.0 star, which the magnitude filter skips. -/
theorem renderFrame_two_star_catalog :
    renderFrame dsc0 store7
      = [Directive.ellipse 315 235 325 245,
         Directive.textOut 325 235 (("Polaris").toList ++ List.replicate 9 spc)] :=
  renderFrame_store7_eval

/-- C4 (the code at a failing input): the read of index 3 of `store7`
fails — its offset 427 is exactly the end of the store, so `fgets`
returns NULL; `GetStar` leaves the output record untouched, but it
surfaces no error, so the renderer emits for the failed index exactly
the directives of the previously read star instead of skipping it. -/
theorem failed_read_rerenders_previous_star :
    readLine store7 ((3 + 4) * (streclen : ℤ)) = none
    ∧ GetStar store7 3 staleStar = staleStar
    ∧ renderLoop store7 dsc0 [3] staleStar = renderLoop store7 dsc0 [1] star0
    ∧ renderLoop store7 dsc0 [3] staleStar ≠ [] := by
  refine ⟨by decide, getStar_store7_out_of_range staleStar, ?_, ?_⟩
  · rw [renderLoop_store7_failed_three, renderLoop_store7_single_one]
  · rw [renderLoop_store7_failed_three]
    simp

theorem readLine_sixty (store : List Char) (index : ℤ)
    (h0 : 0 ≤ index)
    (h1 : ((index + 4) * (streclen : ℤ)).toNat + 60 ≤ store.length)
    (hnl : ∀ c ∈ readBytes store index, c ≠ nlChar) :
    readLine store ((index + 4) * (streclen : ℤ)) = some (readBytes store index) := by
  have hpos : 0 ≤ (index + 4) * (streclen : ℤ) :=
    mul_nonneg (by linarith) (by norm_num [streclen])
  have hlt : ((index + 4) * (streclen : ℤ)).toNat < store.length := by omega
  unfold readLine
  rw [if_pos ⟨hpos, hlt⟩]
  congr 1
  exact fgetsAux_eq_take 60 _ hnl

theorem GetStar_fields_eval (store : List Char) (index : ℤ) (star : STARDATA)
    (h0 : 0 ≤ index)
    (h1 : ((index + 4) * (streclen : ℤ)).toNat + 60 ≤ store.length)
    (h2 : ∀ c ∈ readBytes store index, c ≠ nlChar ∧ c ≠ nulChar) :
    GetStar store index star =
      { Label := (readBytes store index).take 16
        RA := atof (((readBytes store index).drop 17).take 11)
        Dec := atof (((readBytes store index).drop 28).take 12)
        Mag := atof (((readBytes store index).drop 40).take 5)
        SClass := ((readBytes store index).drop 45).take 2
        PMRA := atof (((readBytes store index).drop 47).take 9)
        PMDec := atof (((readBytes store index).drop 56).take 4) } := by
  have hread := readLine_sixty store index h0 h1 (fun c hc => (h2 c hc).1)
  rw [GetStar_eq_of_some store index star _ hread]
  have hnul : ∀ c ∈ readBytes store index, c ≠ nulChar := fun c hc => (h2 c hc).2
  rw [cfield_eq_take 0 16 _ hnul, cfield_eq_take 17 11 _ hnul,
    cfield_eq_take 28 12 _ hnul, cfield_eq_take 40 5 _ hnul,
    cfield_eq_take 45 2 _ hnul, cfield_eq_take 47 9 _ hnul,
    cfield_eq_take 56 9 _ hnul]
  have hlen : (readBytes store index).length = 60 := by
    unfold readBytes
    rw [List.length_take, List.length_drop]
    omega
  have hlen56 : ((readBytes store index).drop 56).length ≤ 4 := by
    rw [List.length_drop, hlen]
  have hpm : ((readBytes store index).drop 56).take 9
      = ((readBytes store index).drop 56).take 4 := by
    rw [List.take_of_length_le (by omega), List.take_of_length_le (by omega)]
  rw [hpm]
  simp

unseal Rat.add Rat.sub Rat.mul Rat.inv Rat.ofScientific in
/-- C2 (counterexample): on `store7` the reader does not behave as the
claim states: the line read for index 1 holds 60 bytes, not 61; the
proper-motion-Dec value parsed by the code (1234, from bytes 56-59 of
the bytes read) differs from the value of the claimed 9-byte field at
bytes 56-64 of the record (12345); and the label keeps 16 bytes of the
claimed 17-byte range 0-16. -/
theorem GetStar_layout_counterexample :
    Option.map List.length (readLine store7 ((1 + 4) * (streclen : ℤ))) = some 60
    ∧ (GetStar store7 1 star0).PMDec ≠ (GetStarSpec store7 1).PMDec
    ∧ (GetStar store7 1 star0).Label.length ≠ (GetStarSpec store7 1).Label.length := by
  refine ⟨by decide, ?_, by decide⟩
  decide

/-- C2 (amended): `read` seeks to byte offset `(index + 4) * 61` but
reads at most 60 bytes — `fgets` with the 61-byte record length reads up
to 60 characters; on a full 60-byte line containing no newline and no
NUL the fields are cut at: label bytes 0-15 (16 bytes; the 17th copied
byte is overwritten by the terminator), RA 17-27, Dec 28-39, magnitude
40-44, spectral class 45-46, proper motion RA 47-55, and proper motion
Dec only bytes 56-59, because the 9-byte copy starting at byte 56 runs
past the end of the 60 bytes read. -/
theorem GetStar_sixty_byte_layout (store : List Char) (index : ℤ) (star : STARDATA)
    (h0 : 0 ≤ index)
    (h1 : ((index + 4) * (streclen : ℤ)).toNat + 60 ≤ store.length)
    (h2 : ∀ c ∈ readBytes store index, c ≠ nlChar ∧ c ≠ nulChar) :
    readLine store ((index + 4) * (streclen : ℤ)) = some (readBytes store index)
    ∧ GetStar store index star =
      { Label := (readBytes store index).take 16
        RA := atof (((readBytes store index).drop 17).take 11)
        Dec := atof (((readBytes store index).drop 28).take 12)
        Mag := atof (((readBytes store index).drop 40).take 5)
        SClass := ((readBytes store index).drop 45).take 2
        PMRA := atof (((readBytes store index).drop 47).take 9)
        PMDec := atof (((readBytes store index).drop 56).take 4) } :=
  ⟨readLine_sixty store index h0 h1 (fun c hc => (h2 c hc).1),
   GetStar_fields_eval store index star h0 h1 h2⟩

/-- Witness for C2 (amended) at star index 1 of the concrete `store7`. -/
theorem GetStar_sixty_byte_layout_witness :
    readLine store7 ((1 + 4) * (streclen : ℤ)) = some (readBytes store7 1)
    ∧ GetStar store7 1 star0 =
      { Label := (readBytes store7 1).take 16
        RA := atof (((readBytes store7 1).drop 17).take 11)
        Dec := atof (((readBytes store7 1).drop 28).take 12)
        Mag := atof (((readBytes store7 1).drop 40).take 5)
        SClass := ((readBytes store7 1).drop 45).take 2
        PMRA := atof (((readBytes store7 1).drop 47).take 9)
        PMDec := atof (((readBytes store7 1).drop 56).take 4) } :=
  GetStar_sixty_byte_layout store7 1 star0 (by norm_num) (by decide) (by decide)

unseal Rat.add Rat.sub Rat.mul Rat.inv Rat.ofScientific in
/-- C5 (counterexample): reading the record whose 17-byte label field is
`Polaris` right-padded with spaces returns the label `Polaris` followed
by nine spaces — trailing spaces are not stripped. -/
theorem GetStar_label_not_trimmed :
    (GetStar store7 1 star0).Label ≠ ("Polaris").toList
    ∧ (GetStar store7 1 star0).Label = ("Polaris").toList ++ List.replicate 9 spc := by
  refine ⟨by decide, by decide⟩

/-- C5 (amended): the returned label is untrimmed — the `rtrim` calls in
the source (DSWIN.C lines 287 and 529) are commented out — so `read`
returns the raw first 16 bytes of the record, right-padding spaces
included. -/
theorem GetStar_label_untrimmed (store : List Char) (index : ℤ) (star : STARDATA)
    (h0 : 0 ≤ index)
    (h1 : ((index + 4) * (streclen : ℤ)).toNat + 60 ≤ store.length)
    (h2 : ∀ c ∈ readBytes store index, c ≠ nlChar ∧ c ≠ nulChar) :
    (GetStar store index star).Label = (readBytes store index).take 16 := by
  rw [GetStar_fields_eval store index star h0 h1 h2]

/-- Witness for C5 (amended) at star index 1 of the concrete `store7`:
the raw 16 bytes are `Polaris` plus nine spaces. -/
theorem GetStar_label_untrimmed_witness :
    (GetStar store7 1 star0).Label = (readBytes store7 1).take 16 :=
  GetStar_label_untrimmed store7 1 star0 (by norm_num) (by decide) (by decide)
